import Mathlib

/-!
Verification development for the sensor-data-backend service: a shallow
embedding of the JavaScript sources (`server.js`, `firebaseConfig.js`,
`dublinBikesFetcher.js`) together with theorems settling the specified
properties of the session buffer, the chunked batch committer, the CSV
export, the Dublin Bikes poller, and the Firestore query endpoints.

Modelling conventions:
- JavaScript numbers that the service treats as integers (timestamps in
  milliseconds, sensor readings, station counts) are modelled as `Int`.
- A JavaScript object field that may be absent is an `Option`; an object
  literal that never sets a field corresponds to the field being `none`.
- The Firestore batch `commit()` call is modelled as a function returning
  `none` on success and `some errorMessage` when the promise rejects.
- `async`/`await` around those calls is sequential in the source (each
  commit is awaited before the next chunk), so the embedding is a plain
  fold over the chunks.
-/

set_option maxRecDepth 40000

namespace SensorBackend

/-- A sensor record (`server.js`, §3 of the spec): client timestamp in
integer milliseconds plus ten optional numeric readings.  An absent field
in the JSON object is `none`. -/
structure SensorRecord where
  timestamp : Int
  latitude : Option Int := none
  longitude : Option Int := none
  altitude : Option Int := none
  speed : Option Int := none
  accuracy : Option Int := none
  heading : Option Int := none
  accel_x : Option Int := none
  accel_y : Option Int := none
  accel_z : Option Int := none
  accel_magnitude : Option Int := none
deriving Repr, DecidableEq

/-- A sample record used as a concrete input in witnesses. -/
def rec0 : SensorRecord := { timestamp := 0 }

/-- A record with the given timestamp and no optional fields. -/
def recTs (t : Int) : SensorRecord := { timestamp := t }

/-- Geographic position of a bike station (`dublinBikesFetcher.js` line 53). -/
structure Position where
  lat : Int
  lng : Int
deriving Repr, DecidableEq

/-- A transformed station record as built by `dublinBikesFetcher.js`
lines 49-64 and stored to the `dublin_bikes` collection. -/
structure StationRecord where
  station_number : Int
  station_name : String
  address : String
  position : Position
  banking : Bool
  bonus : Bool
  bike_stands : Int
  available_bike_stands : Int
  available_bikes : Int
  status : String
  last_update : Option Int
deriving Repr, DecidableEq

/-- A sample station record used as a concrete input in witnesses. -/
def st0 : StationRecord :=
  { station_number := 1, station_name := "s", address := "a",
    position := { lat := 0, lng := 0 }, banking := false, bonus := false,
    bike_stands := 0, available_bike_stands := 0, available_bikes := 0,
    status := "OPEN", last_update := none }

/-- A raw upstream JCDecaux station object (`dublinBikesFetcher.js`
lines 49-64 read these fields; the ones guarded by `||` or `?:` in the
source may be absent and are `Option` here). -/
structure UpstreamStation where
  number : Int
  name : String
  address : String
  position : Position
  banking : Option Bool := none
  bonus : Option Bool := none
  bike_stands : Option Int := none
  available_bike_stands : Option Int := none
  available_bikes : Option Int := none
  status : Option String := none
  last_update : Option Int := none
deriving Repr, DecidableEq

/-! ## Batch committer (`firebaseConfig.js: addSensorDataBatch`, lines 66-102) -/

/-- The hard per-commit limit of the durable sink
(`firebaseConfig.js` line 74: `const BATCH_SIZE = 500`). -/
def BATCH_SIZE : Nat := 500

/-- Fuel-indexed chunking loop.  `chunksOf` below instantiates the fuel
with the list length; the fuel only serves to make the recursion
structural (each iteration of the source loop `for (let i = 0; i <
dataPoints.length; i += BATCH_SIZE)` consumes at least one element when
`0 < n`). -/
def chunksOfAux (n : Nat) : Nat → List α → List (List α)
  | _, [] => []
  | 0, _ :: _ => []
  | fuel + 1, x :: xs => (x :: xs).take n :: chunksOfAux n fuel ((x :: xs).drop n)

/-- Partition of `l` into successive slices of at most `n` elements,
mirroring `dataPoints.slice(i, i + BATCH_SIZE)` in `addSensorDataBatch`
(`firebaseConfig.js` lines 76-77). -/
def chunksOf (n : Nat) (l : List α) : List (List α) := chunksOfAux n l.length l

/-- Outcome of one chunked commit loop
(`firebaseConfig.js` lines 76-90): the chunks whose `commit()` resolved
(in order), the number of `commit()` calls made, and the error message of
the first rejected commit, if any.  The loop stops at the first rejection
because the thrown error escapes the `for` loop. -/
def runChunks (sink : Nat → List SensorRecord → Option String) :
    Nat → List (List SensorRecord) → List (List SensorRecord) × Nat × Option String
  | _, [] => ([], 0, none)
  | i, c :: rest =>
    match sink i c with
    | some e => ([], 1, some e)
    | none =>
      let r := runChunks sink (i + 1) rest
      (c :: r.1, r.2.1 + 1, r.2.2)

/-- The JSON object returned by `addSensorDataBatch`.  On success the
source returns `{success: true, totalAdded, batches}` (lines 92-96); on a
rejected commit it returns `{success: false, error}` (line 100).  A field
the source never sets on the returned object is `none`; in particular the
source sets no `committedChunks` field on either path. -/
structure BatchResult where
  success : Bool
  totalAdded : Option Nat := none
  batches : Option Nat := none
  committedChunks : Option Nat := none
  error : Option String := none
deriving Repr, DecidableEq

/-- Result of `addSensorDataBatch` together with its effect on the
durable store: `committed` are the chunks whose atomic commit resolved
(they stay in the store; nothing in the source deletes them afterwards),
`attempted` counts the `commit()` calls that were submitted. -/
structure BatchOutcome where
  result : BatchResult
  committed : List (List SensorRecord)
  attempted : Nat
deriving Repr, DecidableEq

/-- `addSensorDataBatch(dataPoints)` (`firebaseConfig.js` lines 66-102):
slice `dataPoints` into chunks of at most `BATCH_SIZE`, commit each chunk
as one atomic batch in order, stop at the first rejected commit.  The
`sink` argument models Firestore: `sink i c = none` means the commit of
chunk number `i` (0-based) resolves, `some e` means it rejects with
message `e`. -/
def addSensorDataBatch (sink : Nat → List SensorRecord → Option String)
    (dataPoints : List SensorRecord) : BatchOutcome :=
  let chunks := chunksOf BATCH_SIZE dataPoints
  let r := runChunks sink 0 chunks
  match r.2.2 with
  | some e =>
    { result := { success := false, error := some e },
      committed := r.1, attempted := r.2.1 }
  | none =>
    { result := { success := true, totalAdded := some dataPoints.length,
                  batches := some chunks.length },
      committed := r.1, attempted := r.2.1 }

/-- The JSON object returned by `addDublinBikesData`
(`firebaseConfig.js` lines 125-129 on success, line 133 on failure). -/
structure BikesResult where
  success : Bool
  stationsAdded : Option Nat := none
  timestampISO : Option String := none
  error : Option String := none
deriving Repr, DecidableEq

/-- Result of `addDublinBikesData` together with the batches committed to
the `dublin_bikes` collection. -/
structure BikesOutcome where
  result : BikesResult
  committed : List (List StationRecord)
deriving Repr, DecidableEq

/-- `addDublinBikesData(stationsData)` (`firebaseConfig.js` lines
105-135): puts ALL stations into a single Firestore batch and performs
exactly one `batch.commit()` — there is no chunking on this path.  `now`
is the ISO rendering of the shared `fetched_at` timestamp taken at line
110; `sinkCommit` models the single batch commit. -/
def addDublinBikesData (sinkCommit : List StationRecord → Option String)
    (now : String) (stationsData : List StationRecord) : BikesOutcome :=
  match sinkCommit stationsData with
  | some e => { result := { success := false, error := some e }, committed := [] }
  | none =>
    { result := { success := true, stationsAdded := some stationsData.length,
                  timestampISO := some now },
      committed := [stationsData] }

/-! ## Server state and session endpoints (`server.js`) -/

/-- The mutable module-level state of `server.js` (lines 36-37):
`let sensorData = []` and `let sessionId = null`. -/
structure ServerState where
  sensorData : List SensorRecord
  sessionId : Option String
deriving Repr, DecidableEq

/-- State at process start (`server.js` lines 36-37). -/
def initialState : ServerState := { sensorData := [], sessionId := none }

/-- Response of `POST /api/session/start` (`server.js` lines 78-82). -/
structure StartResponse where
  success : Bool
  sessionId : String
  message : String
deriving Repr, DecidableEq

/-- `POST /api/session/start` (`server.js` lines 74-83):
`sessionId = Date.now().toString(); sensorData = []`.  `now` is the value
of `Date.now()` (milliseconds since the epoch) at the time of the call. -/
def startSession (now : Nat) (s : ServerState) : ServerState × StartResponse :=
  let _ := s
  ({ sensorData := [], sessionId := some (toString now) },
   { success := true, sessionId := toString now, message := "Session started" })

/-- The `data` field of a `POST /api/data` body: absent, present but not
an array, or an array of records.  The guard `!data ||
!Array.isArray(data)` (`server.js` line 89) rejects exactly the first two
shapes (every non-array JavaScript value, falsy or not, fails
`Array.isArray`; every array passes both tests). -/
inductive DataField where
  | missing
  | notArray
  | arr (records : List SensorRecord)
deriving Repr, DecidableEq

/-- Response of `POST /api/data` (`server.js` lines 90-93 on rejection,
113-118 on success).  `status` is the HTTP status code. -/
structure AppendResponse where
  status : Nat
  success : Bool
  totalPoints : Option Nat := none
  message : Option String := none
  storedToCloud : Option Bool := none
  error : Option String := none
deriving Repr, DecidableEq

/-- Outcome of `POST /api/data`: the new server state, the HTTP response,
and the chunks committed to the `sensor_data` collection by the forwarded
`addSensorDataBatch` call. -/
structure PostDataOutcome where
  state : ServerState
  response : AppendResponse
  committed : List (List SensorRecord)
deriving Repr, DecidableEq

/-- `POST /api/data` (`server.js` lines 86-119): validate the `data`
field, push the records onto `sensorData`, forward them to
`addSensorDataBatch` (whose outcome is only logged, lines 100-111), and
respond with `{success: true, totalPoints, message, storedToCloud: true}`
— the source hard-codes `storedToCloud: true` at line 117 on every
successful request, regardless of the Firestore outcome. -/
def postData (sink : Nat → List SensorRecord → Option String)
    (d : DataField) (s : ServerState) : PostDataOutcome :=
  match d with
  | .missing =>
    { state := s,
      response := { status := 400, success := false, error := some "Invalid data format" },
      committed := [] }
  | .notArray =>
    { state := s,
      response := { status := 400, success := false, error := some "Invalid data format" },
      committed := [] }
  | .arr data =>
    let s' : ServerState := { s with sensorData := s.sensorData ++ data }
    let fire := addSensorDataBatch sink data
    { state := s',
      response := { status := 200, success := true,
                    totalPoints := some s'.sensorData.length,
                    message := some ("Received " ++ toString data.length ++ " points"),
                    storedToCloud := some true },
      committed := fire.committed }

/-- A sequence of valid `POST /api/data` calls, threading the server
state (used to state the cumulative-count property). -/
def runAppends (sink : Nat → List SensorRecord → Option String) :
    List (List SensorRecord) → ServerState → ServerState
  | [], s => s
  | b :: rest, s => runAppends sink rest (postData sink (.arr b) s).state

/-- Response of `GET /api/data/count` (`server.js` lines 122-127). -/
structure CountResponse where
  count : Nat
  sessionId : Option String
deriving Repr, DecidableEq

/-- `GET /api/data/count` (`server.js` lines 122-127). -/
def countHandler (s : ServerState) : CountResponse :=
  { count := s.sensorData.length, sessionId := s.sessionId }

/-! ## CSV export (`server.js: GET /api/data/download`, lines 130-187) -/

/-- Two-digit zero padding (used by the ISO date rendering). -/
def pad2 (n : Nat) : String := if n < 10 then "0" ++ toString n else toString n

/-- Three-digit zero padding. -/
def pad3 (n : Nat) : String :=
  if n < 10 then "00" ++ toString n
  else if n < 100 then "0" ++ toString n
  else toString n

/-- Four-digit zero-padded year. -/
def pad4 (y : Int) : String :=
  if y < 0 then "-" ++ toString (-y)
  else if y < 10 then "000" ++ toString y
  else if y < 100 then "00" ++ toString y
  else if y < 1000 then "0" ++ toString y
  else toString y

/-- Rendering of the exact 3-decimal value `n / 1000` — the value of
`(ms / 1000).toFixed(3)` for a nonnegative integer `ms` (the quotient is
exactly representable to 3 decimals, so `toFixed(3)` renders it without
rounding). -/
def fixed3Nat (n : Nat) : String := toString (n / 1000) ++ "." ++ pad3 (n % 1000)

/-- `((timestamp - startTime) / 1000).toFixed(3)` (`server.js` line 166)
for an integer millisecond difference `d`. -/
def fixed3 (d : Int) : String :=
  if d < 0 then "-" ++ fixed3Nat (-d).toNat else fixed3Nat d.toNat

/-- Gregorian calendar date for a day count relative to 1970-01-01
(standard civil-from-days algorithm); returns (year, month, day). -/
def civilFromDays (z0 : Int) : Int × Nat × Nat :=
  let z := z0 + 719468
  let era := Int.ediv z 146097
  let doe := (z - era * 146097).toNat
  let yoe := (doe - doe / 1460 + doe / 36524 - doe / 146096) / 365
  let y : Int := (yoe : Int) + era * 400
  let doy := doe - (365 * yoe + yoe / 4 - yoe / 100)
  let mp := (5 * doy + 2) / 153
  let d := doy - (153 * mp + 2) / 5 + 1
  let m := if mp < 10 then mp + 3 else mp - 9
  (if m ≤ 2 then y + 1 else y, m, d)

/-- `new Date(ms).toISOString()` (`server.js` line 165) for an epoch
timestamp in integer milliseconds. -/
def toISOString (ms : Int) : String :=
  let days := Int.ediv ms 86400000
  let msod := (Int.emod ms 86400000).toNat
  let c := civilFromDays days
  pad4 c.1 ++ "-" ++ pad2 c.2.1 ++ "-" ++ pad2 c.2.2 ++ "T" ++
    pad2 (msod / 3600000) ++ ":" ++ pad2 (msod % 3600000 / 60000) ++ ":" ++
    pad2 (msod % 60000 / 1000) ++ "." ++ pad3 (msod % 1000) ++ "Z"

/-- Rendering of an optional numeric CSV field, `point.field || ''`
(`server.js` lines 167-176): the empty string when the field is absent —
and also, because `||` tests JavaScript falsiness, when its value is 0 —
otherwise the decimal rendering of the value. -/
def renderOptInt : Option Int → String
  | none => ""
  | some v => if v = 0 then "" else toString v

/-- The 13 fixed CSV column names (`server.js` lines 142-156). -/
def csvHeaders : List String :=
  ["timestamp", "datetime", "seconds_elapsed", "latitude", "longitude",
   "altitude", "speed", "accuracy", "heading", "accel_x", "accel_y",
   "accel_z", "accel_magnitude"]

/-- One CSV data row (`server.js` lines 162-177). -/
def csvRow (startTime : Int) (p : SensorRecord) : List String :=
  [toString p.timestamp,
   toISOString p.timestamp,
   fixed3 (p.timestamp - startTime),
   renderOptInt p.latitude,
   renderOptInt p.longitude,
   renderOptInt p.altitude,
   renderOptInt p.speed,
   renderOptInt p.accuracy,
   renderOptInt p.heading,
   renderOptInt p.accel_x,
   renderOptInt p.accel_y,
   renderOptInt p.accel_z,
   renderOptInt p.accel_magnitude]

/-- Comparison used by `sort((a, b) => a.timestamp - b.timestamp)`
(`server.js` line 139). -/
def tsLe (a b : SensorRecord) : Prop := a.timestamp ≤ b.timestamp

instance : DecidableRel tsLe := fun a b => Int.decLe a.timestamp b.timestamp

instance : IsTotal SensorRecord tsLe := ⟨fun a b => Int.le_total a.timestamp b.timestamp⟩

instance : IsTrans SensorRecord tsLe := ⟨fun _ _ _ h h' => le_trans h h'⟩

/-- `[...sensorData].sort((a, b) => a.timestamp - b.timestamp)`
(`server.js` line 139): a STABLE sort of a copy of the buffer by
ascending timestamp (`Array.prototype.sort` is stable; insertion sort is
the canonical stable sort and produces the same list). -/
def sortByTs (l : List SensorRecord) : List SensorRecord := List.insertionSort tsLe l

/-- The data rows of `GET /api/data/download` (`server.js` lines
130-179): `none` models the 404 on an empty buffer; otherwise one row per
record of the sorted copy, with `startTime` the first (minimal) sorted
timestamp (line 160). -/
def exportCsvRows (buffer : List SensorRecord) : Option (List (List String)) :=
  match sortByTs buffer with
  | [] => none
  | first :: rest => some ((first :: rest).map (csvRow first.timestamp))

/-- The full CSV body: header line then one line per row
(`server.js` lines 158, 178). -/
def exportCsv (buffer : List SensorRecord) : Option String :=
  match exportCsvRows buffer with
  | none => none
  | some rows =>
    some (String.intercalate "," csvHeaders ++ "\n" ++
      String.join (rows.map (fun r => String.intercalate "," r ++ "\n")))

/-- Response of `GET /api/data/download`: 404 or an attachment with
filename `sensor_data_<sessionId>.csv` (`server.js` lines 131-136, 183). -/
inductive DownloadResponse where
  | notFound
  | csvFile (filename : String) (body : String)
deriving Repr, DecidableEq

/-- `GET /api/data/download` (`server.js` lines 130-187).  The handler
only reads the buffer (the sort at line 139 operates on the copy
`[...sensorData]`), so the returned state is the input state. -/
def downloadHandler (s : ServerState) : ServerState × DownloadResponse :=
  match exportCsv s.sensorData with
  | none => (s, .notFound)
  | some csv =>
    (s, .csvFile
      ("sensor_data_" ++ (match s.sessionId with | none => "null" | some sid => sid) ++ ".csv")
      csv)

/-! ## Dublin Bikes fetcher (`dublinBikesFetcher.js`) -/

/-- The fetcher statistics (`dublinBikesFetcher.js` lines 19-21). -/
structure FetchStats where
  fetchCount : Nat
  lastFetchTime : Option String
  lastFetchStatus : String
deriving Repr, DecidableEq

/-- Statistics at process start (`dublinBikesFetcher.js` lines 19-21). -/
def initialStats : FetchStats :=
  { fetchCount := 0, lastFetchTime := none, lastFetchStatus := "Not started" }

/-- The transformation of one upstream station object
(`dublinBikesFetcher.js` lines 49-64).  The `||` defaults test JavaScript
falsiness: an empty `status` string becomes "UNKNOWN" and a zero
`last_update` becomes `null`, exactly as in the source. -/
def transformStation (station : UpstreamStation) : StationRecord :=
  { station_number := station.number,
    station_name := station.name,
    address := station.address,
    position := { lat := station.position.lat, lng := station.position.lng },
    banking := station.banking.getD false,
    bonus := station.bonus.getD false,
    bike_stands := station.bike_stands.getD 0,
    available_bike_stands := station.available_bike_stands.getD 0,
    available_bikes := station.available_bikes.getD 0,
    status := match station.status with
      | none => "UNKNOWN"
      | some st => if st = "" then "UNKNOWN" else st,
    last_update := match station.last_update with
      | none => none
      | some v => if v = 0 then none else some v }

/-- The outcome of the single upstream `fetch(url)`
(`dublinBikesFetcher.js` lines 38-44): the promise rejects with a network
error, resolves with a non-2xx status (then line 41 throws
`API returned status ...`), or resolves with a JSON array of stations. -/
inductive UpstreamResponse where
  | networkError (msg : String)
  | httpFailure (status : Nat) (statusText : String)
  | ok (stations : List UpstreamStation)
deriving Repr, DecidableEq

/-- The JSON object returned by `fetchDublinBikes`
(`dublinBikesFetcher.js` lines 30, 76-80, 89-92).  Fields the source does
not set on a given path are `none`. -/
structure FetchResult where
  success : Bool
  error : Option String := none
  stationsCount : Option Nat := none
  fetchCount : Option Nat := none
deriving Repr, DecidableEq

/-- Outcome of one `fetchDublinBikes` tick: new statistics, returned
object, and the station batches committed to the store. -/
structure FetchOutcome where
  stats : FetchStats
  result : FetchResult
  committed : List (List StationRecord)
deriving Repr, DecidableEq

/-- `fetchDublinBikes()` (`dublinBikesFetcher.js` lines 26-94).
`apiKey` is `process.env.JCDECAUX_API_KEY` (`none` when unset; the guard
`!JCDECAUX_API_KEY` at line 27 also treats the empty string as missing
and returns before any network access).  `resp` is the outcome of the
upstream request, `sinkCommit` the Firestore batch commit used by
`addDublinBikesData`, `now` the ISO rendering of the current time, and
`st` the statistics before the tick. -/
def fetchDublinBikes (apiKey : Option String) (resp : UpstreamResponse)
    (sinkCommit : List StationRecord → Option String) (now : String)
    (st : FetchStats) : FetchOutcome :=
  if apiKey = none ∨ apiKey = some "" then
    { stats := { st with lastFetchStatus := "Error: Missing API key" },
      result := { success := false, error := some "Missing API key" },
      committed := [] }
  else
    match resp with
    | .networkError msg =>
      { stats := { st with lastFetchStatus := "Error: " ++ msg },
        result := { success := false, error := some msg },
        committed := [] }
    | .httpFailure status statusText =>
      let msg := "API returned status " ++ toString status ++ ": " ++ statusText
      { stats := { st with lastFetchStatus := "Error: " ++ msg },
        result := { success := false, error := some msg },
        committed := [] }
    | .ok stations =>
      let transformedStations := stations.map transformStation
      let out := addDublinBikesData sinkCommit now transformedStations
      if out.result.success then
        { stats := { fetchCount := st.fetchCount + 1,
                     lastFetchTime := some now,
                     lastFetchStatus :=
                       "Success: " ++ toString transformedStations.length ++ " stations" },
          result := { success := true,
                      stationsCount := some transformedStations.length,
                      fetchCount := some (st.fetchCount + 1) },
          committed := out.committed }
      else
        { stats := { st with lastFetchStatus :=
                       "Error: " ++ (out.result.error.getD "undefined") },
          result := { success := false, error := out.result.error },
          committed := out.committed }

/-! ## Firestore query endpoints (`server.js` lines 203-252) -/

/-- Decimal digit value of a character. -/
def digitVal (c : Char) : Option Nat :=
  if c.isDigit then some (c.toNat - Char.toNat '0') else none

/-- Hexadecimal digit value of a character. -/
def hexVal (c : Char) : Option Nat :=
  if c.isDigit then some (c.toNat - Char.toNat '0')
  else if 'a' ≤ c ∧ c ≤ 'f' then some (c.toNat - Char.toNat 'a' + 10)
  else if 'A' ≤ c ∧ c ≤ 'F' then some (c.toNat - Char.toNat 'A' + 10)
  else none

/-- Accumulates the value of the longest digit run at the front of the
character list (non-digits end the run, as in `parseInt`). -/
def parseDigits (base : Nat) (val : Char → Option Nat) : List Char → Nat → Nat
  | [], acc => acc
  | c :: rest, acc =>
    match val c with
    | some d => parseDigits base val rest (acc * base + d)
    | none => acc

/-- JavaScript `parseInt(s)` with no radix argument (`server.js` lines
205 and 231): skip leading whitespace, optional sign, `0x`/`0X` selects
base 16, otherwise base 10; the longest valid digit run is parsed and
`NaN` (here `none`) is returned when there is none. -/
def parseIntJS (s : String) : Option Int :=
  let cs := s.toList.dropWhile Char.isWhitespace
  let signAndRest : Int × List Char :=
    match cs with
    | '-' :: r => (-1, r)
    | '+' :: r => (1, r)
    | r => (1, r)
  let sign := signAndRest.1
  match signAndRest.2 with
  | '0' :: x :: rest =>
    if x = 'x' ∨ x = 'X' then
      match rest with
      | c :: _ =>
        if (hexVal c).isSome then some (sign * (parseDigits 16 hexVal rest 0 : Int))
        else none
      | [] => none
    else some (sign * (parseDigits 10 digitVal ('0' :: x :: rest) 0 : Int))
  | c :: rest =>
    if (digitVal c).isSome then some (sign * (parseDigits 10 digitVal (c :: rest) 0 : Int))
    else none
  | [] => none

/-- `parseInt(req.query.limit) || 100` (`server.js` lines 205, 231):
`q = none` models an absent query parameter (`parseInt(undefined)` is
`NaN`); `NaN` and `0` are falsy and fall back to 100; any other parsed
integer — negative or arbitrarily large included — is passed through. -/
def parseLimit (q : Option String) : Int :=
  match q with
  | none => 100
  | some s =>
    match parseIntJS s with
    | none => 100
    | some n => if n = 0 then 100 else n

/-- Response of the Firestore query endpoints (`server.js` lines
208-219 and 234-245). -/
structure FirestoreResponse (Doc : Type) where
  status : Nat
  success : Bool
  data : Option (List Doc) := none
  count : Option Nat := none
  error : Option String := none
deriving Repr, DecidableEq

/-- Response shaping shared by both Firestore query endpoints
(`server.js` lines 208-219): 200 with data and count on success, 500 with
the error otherwise. -/
def firestoreRespond {Doc : Type} : Except String (List Doc) → FirestoreResponse Doc
  | .ok docs => { status := 200, success := true, data := some docs, count := some docs.length }
  | .error e => { status := 500, success := false, error := some e }

/-- `GET /api/firestore/sensor-data` (`server.js` lines 203-226):
coerce the `limit` query parameter and call `getRecentSensorData(limit)`
(modelled by `sinkQuery`). -/
def sensorDataHandler {Doc : Type} (sinkQuery : Int → Except String (List Doc))
    (q : Option String) : FirestoreResponse Doc :=
  firestoreRespond (sinkQuery (parseLimit q))

/-- `GET /api/firestore/dublin-bikes` (`server.js` lines 229-252):
identical shape over `getRecentBikesData`. -/
def dublinBikesHandler {Doc : Type} (sinkQuery : Int → Except String (List Doc))
    (q : Option String) : FirestoreResponse Doc :=
  firestoreRespond (sinkQuery (parseLimit q))

/-! ## Helper lemmas -/

theorem chunksOfAux_nil (n fuel : Nat) : chunksOfAux n fuel ([] : List α) = [] := by
  cases fuel <;> simp [chunksOfAux]

theorem chunksOfAux_congr (n : Nat) (hn : 0 < n) :
    ∀ (f1 f2 : Nat) (l : List α), l.length ≤ f1 → l.length ≤ f2 →
      chunksOfAux n f1 l = chunksOfAux n f2 l := by
  intro f1
  induction f1 with
  | zero =>
    intro f2 l h1 h2
    have : l = [] := List.eq_nil_of_length_eq_zero (Nat.le_zero.mp h1)
    subst this
    simp [chunksOfAux_nil]
  | succ f ih =>
    intro f2 l h1 h2
    cases l with
    | nil => simp [chunksOfAux_nil]
    | cons x xs =>
      cases f2 with
      | zero => simp at h2
      | succ f2 =>
        simp only [chunksOfAux]
        congr 1
        apply ih
        · simp at h1 ⊢; omega
        · simp at h2 ⊢; omega

/-- The fuel-free recurrence satisfied by `chunksOf`; this is the shape
of the source loop in `addSensorDataBatch`. -/
theorem chunksOf_eq (n : Nat) (hn : 0 < n) (l : List α) :
    chunksOf n l = if l.isEmpty then [] else l.take n :: chunksOf n (l.drop n) := by
  cases l with
  | nil => simp [chunksOf, chunksOfAux]
  | cons x xs =>
    simp only [List.isEmpty_cons, if_neg]
    unfold chunksOf
    simp only [List.length_cons, chunksOfAux]
    congr 1
    apply chunksOfAux_congr n hn
    · simp; omega
    · simp

theorem chunksOf_nil (n : Nat) : chunksOf n ([] : List α) = [] := rfl

theorem chunksOf_small (n : Nat) (hn : 0 < n) (l : List α) (hne : l ≠ [])
    (hle : l.length ≤ n) : chunksOf n l = [l] := by
  rw [chunksOf_eq n hn l]
  rw [if_neg (by simpa [List.isEmpty_iff] using hne)]
  rw [List.take_of_length_le hle, List.drop_eq_nil_of_le hle, chunksOf_nil]

theorem chunksOf_large (n : Nat) (hn : 0 < n) (l : List α) (h : n < l.length) :
    chunksOf n l = l.take n :: chunksOf n (l.drop n) := by
  rw [chunksOf_eq n hn l]
  rw [if_neg]
  simp [List.isEmpty_iff]
  intro hl
  subst hl
  simp at h

theorem chunksOfAux_flatten (n : Nat) (hn : 0 < n) :
    ∀ (fuel : Nat) (l : List α), l.length ≤ fuel → (chunksOfAux n fuel l).flatten = l := by
  intro fuel
  induction fuel with
  | zero =>
    intro l h
    have : l = [] := List.eq_nil_of_length_eq_zero (Nat.le_zero.mp h)
    subst this
    simp [chunksOfAux_nil]
  | succ f ih =>
    intro l h
    cases l with
    | nil => simp [chunksOfAux_nil]
    | cons x xs =>
      simp only [chunksOfAux, List.flatten_cons]
      rw [ih ((x :: xs).drop n) (by simp at h ⊢; omega)]
      exact List.take_append_drop n (x :: xs)

/-- The chunks concatenate back to the input: every record is committed
exactly once, in order. -/
theorem chunksOf_flatten (n : Nat) (hn : 0 < n) (l : List α) :
    (chunksOf n l).flatten = l :=
  chunksOfAux_flatten n hn l.length l le_rfl

theorem chunksOfAux_mem (n : Nat) (hn : 0 < n) :
    ∀ (fuel : Nat) (l : List α) (c : List α), l.length ≤ fuel →
      c ∈ chunksOfAux n fuel l → c.length ≤ n ∧ c ≠ [] := by
  intro fuel
  induction fuel with
  | zero =>
    intro l c h hc
    have : l = [] := List.eq_nil_of_length_eq_zero (Nat.le_zero.mp h)
    subst this
    simp [chunksOfAux_nil] at hc
  | succ f ih =>
    intro l c h hc
    cases l with
    | nil => simp [chunksOfAux_nil] at hc
    | cons x xs =>
      simp only [chunksOfAux, List.mem_cons] at hc
      rcases hc with hc | hc
      · subst hc
        constructor
        · simp
        · cases n with
          | zero => exact absurd hn (by simp)
          | succ m => simp [List.take_cons]
      · exact ih ((x :: xs).drop n) c (by simp at h ⊢; omega) hc

/-- Every chunk respects the per-commit limit and is nonempty. -/
theorem chunksOf_mem (n : Nat) (hn : 0 < n) (l : List α) (c : List α)
    (hc : c ∈ chunksOf n l) : c.length ≤ n ∧ c ≠ [] :=
  chunksOfAux_mem n hn l.length l c le_rfl hc

/-- When every chunk commit resolves, the loop commits all chunks in
order and reports no error. -/
theorem runChunks_all_ok (sink : Nat → List SensorRecord → Option String) :
    ∀ (chunks : List (List SensorRecord)) (i : Nat),
      (∀ j c, chunks[j]? = some c → sink (i + j) c = none) →
      runChunks sink i chunks = (chunks, chunks.length, none) := by
  intro chunks
  induction chunks with
  | nil => intro i _; rfl
  | cons c rest ih =>
    intro i h
    have h0 : sink i c = none := by simpa using h 0 c (by simp)
    simp only [runChunks, h0]
    rw [ih (i + 1) (fun j c' hj => by
      have := h (j + 1) c' (by simpa using hj)
      simpa [Nat.add_assoc, Nat.add_comm 1 j] using this)]
    simp

/-- When the commits of chunks `0 .. k-1` resolve and the commit of chunk
`k` rejects with `e`, the loop commits exactly the first `k` chunks,
submits exactly `k + 1` commits (so later chunks are never submitted),
and surfaces `e`. -/
theorem runChunks_first_fail (sink : Nat → List SensorRecord → Option String) (e : String) :
    ∀ (chunks : List (List SensorRecord)) (i k : Nat),
      (∀ j c, j < k → chunks[j]? = some c → sink (i + j) c = none) →
      (∀ c, chunks[k]? = some c → sink (i + k) c = some e) →
      k < chunks.length →
      runChunks sink i chunks = (chunks.take k, k + 1, some e) := by
  intro chunks
  induction chunks with
  | nil => intro i k _ _ hk; simp at hk
  | cons c rest ih =>
    intro i k hok hfail hk
    cases k with
    | zero =>
      have h0 : sink i c = some e := by simpa using hfail c (by simp)
      simp [runChunks, h0]
    | succ m =>
      have h0 : sink i c = none := by simpa using hok 0 c (Nat.succ_pos m) (by simp)
      simp only [runChunks, h0]
      rw [ih (i + 1) m
        (fun j c' hj hjc => by
          have := hok (j + 1) c' (Nat.succ_lt_succ hj) (by simpa using hjc)
          simpa [Nat.add_assoc, Nat.add_comm 1 j] using this)
        (fun c' hc' => by
          have := hfail c' (by simpa using hc')
          simpa [Nat.add_assoc, Nat.add_comm 1 m] using this)
        (by simpa using Nat.lt_of_succ_lt_succ hk)]
      simp

/-- Each valid append grows the buffer by the batch length; the total
after a run of appends is the sum. -/
theorem runAppends_length (sink : Nat → List SensorRecord → Option String) :
    ∀ (batches : List (List SensorRecord)) (s : ServerState),
      (runAppends sink batches s).sensorData.length =
        s.sensorData.length + (batches.map List.length).sum := by
  intro batches
  induction batches with
  | nil => intro s; simp [runAppends]
  | cons b rest ih =>
    intro s
    simp only [runAppends, postData]
    rw [ih]
    simp
    omega

theorem toDigitsCore_length_le (b : Nat) :
    ∀ (f n : Nat) (ds : List Char), ds.length ≤ (Nat.toDigitsCore b f n ds).length := by
  intro f
  induction f with
  | zero => intro n ds; simp [Nat.toDigitsCore]
  | succ f ih =>
    intro n ds
    simp only [Nat.toDigitsCore]
    by_cases h : n / b = 0
    · simp [h]
    · rw [if_neg h]
      calc ds.length ≤ (Nat.digitChar (n % b) :: ds).length := by simp
        _ ≤ _ := ih (n / b) _

theorem toDigitsCore_ne_nil (b f n : Nat) (ds : List Char) (hf : 0 < f) :
    Nat.toDigitsCore b f n ds ≠ [] := by
  match f, hf with
  | f + 1, _ =>
    simp only [Nat.toDigitsCore]
    by_cases h : n / b = 0
    · simp [h]
    · rw [if_neg h]
      intro hc
      have := toDigitsCore_length_le b f (n / b) (Nat.digitChar (n % b) :: ds)
      rw [hc] at this
      simp at this

theorem natRepr_ne_empty (n : Nat) : Nat.repr n ≠ "" := by
  unfold Nat.repr
  intro h
  have h2 : Nat.toDigits 10 n = [] := by
    have := congrArg String.data h
    simpa [List.asString] using this
  exact toDigitsCore_ne_nil 10 (n + 1) n [] (Nat.succ_pos n) h2

/-- `String(v)` of a JavaScript integer is never the empty string (so a
present nonzero value is visibly rendered in the CSV). -/
theorem intToString_ne_empty (v : Int) : toString v ≠ "" := by
  show Int.repr v ≠ ""
  match v with
  | Int.ofNat m => exact natRepr_ne_empty m
  | Int.negSucc m =>
    simp only [Int.repr]
    intro h
    have := congrArg String.data h
    simp [String.append] at this

/-! ## Claim theorems -/

/-- C1 (counterexample): with a sink that rejects the 2nd of the 3 chunks
of 1001 records, `addSensorDataBatch` stops (only 2 commits submitted, 1
chunk committed) and returns `success = false` with an error — but the
returned object carries NO `committedChunks` field (the source never sets
one), so it is not `1` as the claim states. -/
theorem c1_counterexample :
    (addSensorDataBatch (fun i _ => if i = 1 then some "unavailable" else none)
      (List.replicate 1001 rec0)).result.success = false ∧
    (addSensorDataBatch (fun i _ => if i = 1 then some "unavailable" else none)
      (List.replicate 1001 rec0)).result.error = some "unavailable" ∧
    (addSensorDataBatch (fun i _ => if i = 1 then some "unavailable" else none)
      (List.replicate 1001 rec0)).committed.length = 1 ∧
    (addSensorDataBatch (fun i _ => if i = 1 then some "unavailable" else none)
      (List.replicate 1001 rec0)).attempted = 2 ∧
    ¬ (addSensorDataBatch (fun i _ => if i = 1 then some "unavailable" else none)
      (List.replicate 1001 rec0)).result.committedChunks = some 1 := by
  decide

/-- C1 (amended): if the sink accepts chunks `0 .. k-1` and rejects chunk
`k`, `addSensorDataBatch` returns `success = false` with the error, stops
submitting (exactly `k + 1` commits are attempted, so chunks after `k`
are never submitted), and the first `k` chunks remain committed (no
rollback); the returned object has no `committedChunks` count (`none`). -/
theorem c1_stop_on_failure (sink : Nat → List SensorRecord → Option String)
    (records : List SensorRecord) (k : Nat) (e : String)
    (hk : k < (chunksOf BATCH_SIZE records).length)
    (hok : ∀ j c, j < k → (chunksOf BATCH_SIZE records)[j]? = some c → sink j c = none)
    (hfail : ∀ c, (chunksOf BATCH_SIZE records)[k]? = some c → sink k c = some e) :
    (addSensorDataBatch sink records).result.success = false ∧
    (addSensorDataBatch sink records).result.error = some e ∧
    (addSensorDataBatch sink records).result.committedChunks = none ∧
    (addSensorDataBatch sink records).committed = (chunksOf BATCH_SIZE records).take k ∧
    (addSensorDataBatch sink records).attempted = k + 1 := by
  have hrun := runChunks_first_fail sink e (chunksOf BATCH_SIZE records) 0 k
    (fun j c hj hjc => by simpa using hok j c hj hjc)
    (fun c hc => by simpa using hfail c hc)
    hk
  simp [addSensorDataBatch, hrun]

/-- C1 (witness): the amended theorem applied to a concrete sink that
rejects the 2nd of the 2 chunks of 501 records. -/
theorem c1_witness :
    (addSensorDataBatch (fun i _ => if i = 1 then some "boom" else none)
      (List.replicate 501 rec0)).result.success = false ∧
    (addSensorDataBatch (fun i _ => if i = 1 then some "boom" else none)
      (List.replicate 501 rec0)).result.committedChunks = none ∧
    (addSensorDataBatch (fun i _ => if i = 1 then some "boom" else none)
      (List.replicate 501 rec0)).committed =
      (chunksOf BATCH_SIZE (List.replicate 501 rec0)).take 1 ∧
    (addSensorDataBatch (fun i _ => if i = 1 then some "boom" else none)
      (List.replicate 501 rec0)).attempted = 2 := by
  have h := c1_stop_on_failure (fun i _ => if i = 1 then some "boom" else none)
    (List.replicate 501 rec0) 1 "boom"
    (by decide)
    (fun j c hj _ => by
      have : j = 0 := by omega
      subst this
      simp)
    (fun c _ => by simp)
  exact ⟨h.1, h.2.2.1, h.2.2.2.1, h.2.2.2.2⟩

/-- C2 (counterexample): the station-data path performs NO chunking —
`addDublinBikesData` with 501 records submits a single batch holding all
501 of them, which exceeds the 500-record chunk bound the claim asserts
for every commit path. -/
theorem c2_counterexample :
    (addDublinBikesData (fun _ => none) "t" (List.replicate 501 st0)).committed =
      [List.replicate 501 st0] ∧
    (List.replicate 501 st0).length = 501 ∧
    ¬ (List.replicate 501 st0).length ≤ 500 := by
  refine ⟨rfl, by simp, by simp⟩

/-- C2 (amended): on the sensor-data path `addSensorDataBatch` partitions
the records into nonempty chunks of at most 500 that concatenate back to
the input, commits them in order (all of them when the sink accepts:
`batches` = chunk count, `totalAdded` = record count), 500 records make 1
chunk, 501 make 2 (500 then 1), and 0 records is a no-op success; the
station-data path (`addDublinBikesData`) does NOT chunk — it commits all
records as one single batch. -/
theorem c2_chunking (records : List SensorRecord)
    (sink : Nat → List SensorRecord → Option String)
    (stations : List StationRecord) (bsink : List StationRecord → Option String)
    (now : String)
    (hok : ∀ i c, sink i c = none) (hbok : bsink stations = none) :
    (chunksOf BATCH_SIZE records).flatten = records ∧
    (∀ c ∈ chunksOf BATCH_SIZE records, c.length ≤ BATCH_SIZE ∧ c ≠ []) ∧
    ((addSensorDataBatch sink records).result.success = true ∧
     (addSensorDataBatch sink records).result.totalAdded = some records.length ∧
     (addSensorDataBatch sink records).result.batches =
       some (chunksOf BATCH_SIZE records).length ∧
     (addSensorDataBatch sink records).committed = chunksOf BATCH_SIZE records) ∧
    (records.length = 500 → chunksOf BATCH_SIZE records = [records]) ∧
    (records.length = 501 →
      chunksOf BATCH_SIZE records = [records.take BATCH_SIZE, records.drop BATCH_SIZE] ∧
      (records.take BATCH_SIZE).length = 500 ∧ (records.drop BATCH_SIZE).length = 1) ∧
    addSensorDataBatch sink [] =
      { result := { success := true, totalAdded := some 0, batches := some 0 },
        committed := [], attempted := 0 } ∧
    (addDublinBikesData bsink now stations).committed = [stations] := by
  have hpos : 0 < BATCH_SIZE := by norm_num [BATCH_SIZE]
  have hrun := runChunks_all_ok sink (chunksOf BATCH_SIZE records) 0
    (fun j c _ => by simpa using hok j c)
  refine ⟨chunksOf_flatten BATCH_SIZE hpos records,
    fun c hc => chunksOf_mem BATCH_SIZE hpos records c hc, ?_, ?_, ?_, ?_, ?_⟩
  · simp [addSensorDataBatch, hrun]
  · intro h500
    exact chunksOf_small BATCH_SIZE hpos records
      (by intro hnil; rw [hnil] at h500; simp at h500)
      (by rw [h500]; norm_num [BATCH_SIZE])
  · intro h501
    have hlt : BATCH_SIZE < records.length := by rw [h501]; norm_num [BATCH_SIZE]
    have hdrop : (records.drop BATCH_SIZE).length = 1 := by
      rw [List.length_drop, h501]; norm_num [BATCH_SIZE]
    have htail := chunksOf_small BATCH_SIZE hpos (records.drop BATCH_SIZE)
      (by intro hnil; rw [hnil] at hdrop; simp at hdrop)
      (by rw [hdrop]; norm_num [BATCH_SIZE])
    rw [chunksOf_large BATCH_SIZE hpos records hlt, htail]
    refine ⟨rfl, ?_, hdrop⟩
    rw [List.length_take, h501]; norm_num [BATCH_SIZE]
  · rfl
  · simp [addDublinBikesData, hbok]

/-- C2 (witness): the amended theorem applied to 501 concrete records and
an accepting sink: two chunks of 500 and 1. -/
theorem c2_witness :
    chunksOf BATCH_SIZE (List.replicate 501 rec0) =
      [(List.replicate 501 rec0).take BATCH_SIZE, (List.replicate 501 rec0).drop BATCH_SIZE] ∧
    ((List.replicate 501 rec0).take BATCH_SIZE).length = 500 ∧
    ((List.replicate 501 rec0).drop BATCH_SIZE).length = 1 ∧
    (addDublinBikesData (fun _ => none) "t" (List.replicate 3 st0)).committed =
      [List.replicate 3 st0] := by
  have h := c2_chunking (List.replicate 501 rec0) (fun _ _ => none)
    (List.replicate 3 st0) (fun _ => none) "t" (fun _ _ => rfl) rfl
  have h501 := h.2.2.2.2.1 (by simp)
  exact ⟨h501.1, h501.2.1, h501.2.2, h.2.2.2.2.2.2⟩

/-- C3 (counterexample): with a sink that rejects every commit, a valid
`POST /api/data` call commits nothing to the durable store, yet the
response still reports `storedToCloud = true` — the source hard-codes
`storedToCloud: true`, so a forwarding failure is NOT surfaced as
`storedToCloud = false` as the claim states. -/
theorem c3_counterexample :
    (addSensorDataBatch (fun _ _ => some "Firestore unavailable") [rec0]).result.success
      = false ∧
    (postData (fun _ _ => some "Firestore unavailable") (.arr [rec0])
      initialState).committed = [] ∧
    (postData (fun _ _ => some "Firestore unavailable") (.arr [rec0])
      initialState).response.storedToCloud = some true ∧
    ¬ (postData (fun _ _ => some "Firestore unavailable") (.arr [rec0])
      initialState).response.storedToCloud = some false := by
  decide

/-- C3 (amended): for every valid `POST /api/data`, the in-memory append
succeeds (HTTP 200, records appended) regardless of the durable-sink
outcome and is never rolled back — the state and response do not depend
on the sink at all — but the response's `storedToCloud` flag is always
`true`, even when the sink commit failed, so the forwarding outcome is
not surfaced to the caller. -/
theorem c3_append_isolated (sink : Nat → List SensorRecord → Option String)
    (data : List SensorRecord) (s : ServerState) :
    (postData sink (.arr data) s).state.sensorData = s.sensorData ++ data ∧
    (postData sink (.arr data) s).response.status = 200 ∧
    (postData sink (.arr data) s).response.success = true ∧
    (postData sink (.arr data) s).response.storedToCloud = some true ∧
    (∀ sink',
      (postData sink' (.arr data) s).state = (postData sink (.arr data) s).state ∧
      (postData sink' (.arr data) s).response = (postData sink (.arr data) s).response) := by
  refine ⟨rfl, rfl, rfl, rfl, fun sink' => ⟨rfl, rfl⟩⟩

/-- C4: `exportCsv` rows are the records sorted ascending by timestamp
(a permutation of the buffer, sorted, one row per record); the
`seconds_elapsed` entry of the first data row is always "0.000" (the
start time is the minimal, first sorted timestamp); the handler never
mutates the buffer; and on the concrete buffer appended as
timestamps 1000 then 500 the export yields the timestamp-500 row first
with `seconds_elapsed` "0.000", then the timestamp-1000 row with
"0.500". -/
theorem c4_export_sorted (buffer : List SensorRecord) :
    List.Perm (sortByTs buffer) buffer ∧
    List.Sorted tsLe (sortByTs buffer) ∧
    (∀ (first : SensorRecord) (rest : List SensorRecord),
      sortByTs buffer = first :: rest →
      exportCsvRows buffer = some ((first :: rest).map (csvRow first.timestamp)) ∧
      (csvRow first.timestamp first)[2]? = some "0.000") ∧
    (∀ s : ServerState, (downloadHandler s).1 = s) ∧
    exportCsvRows [recTs 1000, recTs 500] = some
      [["500", "1970-01-01T00:00:00.500Z", "0.000",
        "", "", "", "", "", "", "", "", "", ""],
       ["1000", "1970-01-01T00:00:01.000Z", "0.500",
        "", "", "", "", "", "", "", "", "", ""]] := by
  refine ⟨List.perm_insertionSort tsLe buffer, List.sorted_insertionSort tsLe buffer,
    ?_, ?_, ?_⟩
  · intro first rest h
    constructor
    · simp [exportCsvRows, h]
    · simp only [csvRow]
      simp
      decide
  · intro s
    cases h : exportCsv s.sensorData <;> simp [downloadHandler, h]
  · decide

/-- C4 (witness): the sorted-rows property applied to the concrete
two-record buffer of the end-to-end example. -/
theorem c4_witness :
    exportCsvRows [recTs 1000, recTs 500] =
      some ((recTs 500 :: [recTs 1000]).map (csvRow (recTs 500).timestamp)) ∧
    (csvRow (recTs 500).timestamp (recTs 500))[2]? = some "0.000" :=
  (c4_export_sorted [recTs 1000, recTs 500]).2.2.1 (recTs 500) [recTs 1000] (by decide)

/-- C5: `POST /api/data` responds 400 exactly when the `data` field is
absent or not an array, leaving the state unchanged; a valid append
appends the records in order; and the count after any run of valid
appends following a `startSession` is the sum of the batch lengths. -/
theorem c5_validation_and_count (sink : Nat → List SensorRecord → Option String)
    (d : DataField) (s : ServerState) :
    ((postData sink d s).response.status = 400 ↔ d = .missing ∨ d = .notArray) ∧
    ((postData sink d s).response.status = 400 → (postData sink d s).state = s) ∧
    (∀ data, d = .arr data →
      (postData sink d s).state.sensorData = s.sensorData ++ data ∧
      (postData sink d s).response.status = 200) ∧
    (∀ (batches : List (List SensorRecord)) (now : Nat),
      (countHandler (runAppends sink batches (startSession now s).1)).count =
        (batches.map List.length).sum) := by
  refine ⟨?_, ?_, ?_, ?_⟩
  · cases d <;> simp [postData]
  · cases d <;> simp [postData]
  · intro data hd
    subst hd
    exact ⟨rfl, rfl⟩
  · intro batches now
    show (runAppends sink batches (startSession now s).1).sensorData.length = _
    rw [runAppends_length]
    simp [startSession]

/-- C5 (witness): a missing `data` field is rejected with 400 and no
state change; two valid appends of 1 and 2 records after a fresh session
yield count 3. -/
theorem c5_witness :
    (postData (fun _ _ => none) .missing initialState).response.status = 400 ∧
    (postData (fun _ _ => none) .missing initialState).state = initialState ∧
    (countHandler (runAppends (fun _ _ => none) [[rec0], [rec0, rec0]]
        (startSession 7 initialState).1)).count =
      ([[rec0], [rec0, rec0]].map List.length).sum := by
  have h := c5_validation_and_count (fun _ _ => none) .missing initialState
  have h400 := h.1.mpr (Or.inl rfl)
  exact ⟨h400, h.2.1 h400, h.2.2.2 [[rec0], [rec0, rec0]] 7⟩

/-- C6 (counterexample): two consecutive `startSession` calls that
observe the same `Date.now()` millisecond (the id is
`Date.now().toString()`, so this happens whenever two calls land in the
same millisecond) return the SAME session id — the ids are not
collision-free within the process lifetime. -/
theorem c6_counterexample :
    (startSession 1700000000000 (startSession 1700000000000 initialState).1).2.sessionId =
      (startSession 1700000000000 initialState).2.sessionId ∧
    (startSession 1700000000000 (startSession 1700000000000 initialState).1).1.sessionId =
      (startSession 1700000000000 initialState).1.sessionId :=
  ⟨rfl, rfl⟩

/-- C6 (amended): `startSession` derives the session id purely from the
current clock millisecond (`Date.now().toString()`) — so two calls in the
same millisecond return the same id and ids are only time-based, not
collision-free — and it unconditionally clears the buffer: after
`startSession`, `count()` is 0 whatever the prior state held. -/
theorem c6_start_session (now : Nat) (s s' : ServerState) :
    (startSession now s).1.sensorData = [] ∧
    (countHandler (startSession now s).1).count = 0 ∧
    (startSession now s).1.sessionId = some (toString now) ∧
    (startSession now s).2.sessionId = toString now ∧
    (startSession now s).1.sessionId = (startSession now s').1.sessionId ∧
    (startSession now s).2.success = true :=
  ⟨rfl, rfl, rfl, rfl, rfl, rfl⟩

/-- C7: `fetchCount` counts successful tick completions only.  On every
failing tick — missing (or empty) API credential, network error, upstream
non-2xx, or sink commit failure — `lastFetchStatus` is set to an error
message and `fetchCount` is unchanged; `fetchCount` is incremented and
`lastFetchTime`/`lastFetchStatus` set to success values exactly when the
commit succeeds; with the credential absent the tick never touches the
network or the sink (the outcome is independent of both). -/
theorem c7_fetch_stats (apiKey : Option String) (resp : UpstreamResponse)
    (sinkCommit : List StationRecord → Option String) (now : String)
    (st : FetchStats) :
    ((fetchDublinBikes apiKey resp sinkCommit now st).result.success = false →
      (fetchDublinBikes apiKey resp sinkCommit now st).stats.fetchCount = st.fetchCount ∧
      ∃ msg, (fetchDublinBikes apiKey resp sinkCommit now st).stats.lastFetchStatus =
        "Error: " ++ msg) ∧
    ((fetchDublinBikes apiKey resp sinkCommit now st).result.success = true →
      (fetchDublinBikes apiKey resp sinkCommit now st).stats.fetchCount = st.fetchCount + 1 ∧
      (fetchDublinBikes apiKey resp sinkCommit now st).stats.lastFetchTime = some now ∧
      ∃ n : Nat, (fetchDublinBikes apiKey resp sinkCommit now st).stats.lastFetchStatus =
        "Success: " ++ toString n ++ " stations") ∧
    (apiKey = none →
      (fetchDublinBikes apiKey resp sinkCommit now st).stats.lastFetchStatus =
        "Error: Missing API key" ∧
      (fetchDublinBikes apiKey resp sinkCommit now st).result =
        { success := false, error := some "Missing API key" } ∧
      (fetchDublinBikes apiKey resp sinkCommit now st).committed = [] ∧
      (∀ resp' sinkCommit',
        fetchDublinBikes none resp' sinkCommit' now st =
          fetchDublinBikes none resp sinkCommit now st)) := by
  by_cases hkey : apiKey = none ∨ apiKey = some ""
  · have hred : fetchDublinBikes apiKey resp sinkCommit now st =
        { stats := { st with lastFetchStatus := "Error: Missing API key" },
          result := { success := false, error := some "Missing API key" },
          committed := [] } := by
      simp only [fetchDublinBikes, if_pos hkey]
    have hred0 : ∀ (r : UpstreamResponse) (sk : List StationRecord → Option String),
        fetchDublinBikes none r sk now st =
          { stats := { st with lastFetchStatus := "Error: Missing API key" },
            result := { success := false, error := some "Missing API key" },
            committed := [] } := by
      intro r sk
      simp [fetchDublinBikes]
    rw [hred]
    exact ⟨fun _ => ⟨rfl, ⟨"Missing API key", rfl⟩⟩,
      fun hsucc => by simp at hsucc,
      fun _ => ⟨rfl, rfl, rfl, fun resp' sinkCommit' => by rw [hred0, hred0]⟩⟩
  · have hknone : ¬ apiKey = none := fun h => hkey (Or.inl h)
    cases resp with
    | networkError msg =>
      have hred : fetchDublinBikes apiKey (.networkError msg) sinkCommit now st =
          { stats := { st with lastFetchStatus := "Error: " ++ msg },
            result := { success := false, error := some msg },
            committed := [] } := by
        simp only [fetchDublinBikes, if_neg hkey]
      rw [hred]
      exact ⟨fun _ => ⟨rfl, ⟨msg, rfl⟩⟩, fun hsucc => by simp at hsucc,
        fun h => absurd h hknone⟩
    | httpFailure status statusText =>
      have hred : fetchDublinBikes apiKey (.httpFailure status statusText) sinkCommit now st =
          { stats := { st with lastFetchStatus :=
              "Error: " ++ ("API returned status " ++ toString status ++ ": " ++ statusText) },
            result := { success := false,
                        error := some ("API returned status " ++ toString status ++
                          ": " ++ statusText) },
            committed := [] } := by
        simp only [fetchDublinBikes, if_neg hkey]
      rw [hred]
      exact ⟨fun _ => ⟨rfl,
          ⟨"API returned status " ++ toString status ++ ": " ++ statusText, rfl⟩⟩,
        fun hsucc => by simp at hsucc,
        fun h => absurd h hknone⟩
    | ok stations =>
      cases hc : sinkCommit (stations.map transformStation) with
      | none =>
        have hred : fetchDublinBikes apiKey (.ok stations) sinkCommit now st =
            { stats := { fetchCount := st.fetchCount + 1,
                         lastFetchTime := some now,
                         lastFetchStatus := "Success: " ++
                           toString (stations.map transformStation).length ++ " stations" },
              result := { success := true,
                          stationsCount := some (stations.map transformStation).length,
                          fetchCount := some (st.fetchCount + 1) },
              committed := [stations.map transformStation] } := by
          simp [fetchDublinBikes, if_neg hkey, addDublinBikesData, hc]
        rw [hred]
        exact ⟨fun hf => by simp at hf,
          fun _ => ⟨rfl, rfl, ⟨(stations.map transformStation).length, rfl⟩⟩,
          fun h => absurd h hknone⟩
      | some e =>
        have hred : fetchDublinBikes apiKey (.ok stations) sinkCommit now st =
            { stats := { st with lastFetchStatus := "Error: " ++ e },
              result := { success := false, error := some e },
              committed := [] } := by
          simp [fetchDublinBikes, if_neg hkey, addDublinBikesData, hc]
        rw [hred]
        exact ⟨fun _ => ⟨rfl, ⟨e, rfl⟩⟩, fun hsucc => by simp at hsucc,
          fun h => absurd h hknone⟩

/-- C7 (witness): a tick with the credential unset reports
"Error: Missing API key" and leaves `fetchCount` at its prior value. -/
theorem c7_witness :
    (fetchDublinBikes none (.ok []) (fun _ => none) "2024-01-01T00:00:00.000Z"
      initialStats).stats.lastFetchStatus = "Error: Missing API key" ∧
    (fetchDublinBikes none (.ok []) (fun _ => none) "2024-01-01T00:00:00.000Z"
      initialStats).stats.fetchCount = initialStats.fetchCount := by
  have h := c7_fetch_stats none (.ok []) (fun _ => none)
    "2024-01-01T00:00:00.000Z" initialStats
  have hkey := h.2.2 rfl
  have hfail : (fetchDublinBikes none (.ok []) (fun _ => none)
      "2024-01-01T00:00:00.000Z" initialStats).result.success = false := by
    rw [hkey.2.1]
  exact ⟨hkey.1, (h.1 hfail).1⟩

/-- C8 (counterexample): a record whose `latitude` is present with value
0 is rendered as the empty string in its CSV cell (the source uses
`point.latitude || ''` and 0 is falsy), not as the numeric value "0" the
claim requires for present fields. -/
theorem c8_counterexample :
    (csvRow 0 { timestamp := 0, latitude := some 0 })[3]? = some "" ∧
    ¬ ("" : String) = toString (0 : Int) := by
  decide

/-- C8 (amended): each of the 10 optional numeric CSV cells is
`renderOptInt` of the record's field, which is the empty string exactly
when the field is absent OR its value is 0 (JavaScript falsiness of
`|| ''`), and the decimal rendering of the value whenever it is present
and nonzero. -/
theorem c8_optional_fields (startTime : Int) (p : SensorRecord) :
    (csvRow startTime p).drop 3 = [renderOptInt p.latitude, renderOptInt p.longitude,
      renderOptInt p.altitude, renderOptInt p.speed, renderOptInt p.accuracy,
      renderOptInt p.heading, renderOptInt p.accel_x, renderOptInt p.accel_y,
      renderOptInt p.accel_z, renderOptInt p.accel_magnitude] ∧
    (∀ o : Option Int, renderOptInt o = "" ↔ o = none ∨ o = some 0) ∧
    (∀ v : Int, ¬ v = 0 → renderOptInt (some v) = toString v) := by
  refine ⟨rfl, ?_, ?_⟩
  · intro o
    cases o with
    | none => simp [renderOptInt]
    | some v =>
      by_cases hv : v = 0
      · subst hv; simp [renderOptInt]
      · simp [renderOptInt, hv]
        exact intToString_ne_empty v
  · intro v hv
    simp [renderOptInt, hv]

/-- C8 (witness): the characterization applied to a present nonzero
value and to an absent one. -/
theorem c8_witness :
    renderOptInt (some 7) = toString (7 : Int) ∧
    (renderOptInt (none : Option Int) = "" ↔
      (none : Option Int) = none ∨ (none : Option Int) = some 0) :=
  ⟨(c8_optional_fields 0 rec0).2.2 7 (by decide), (c8_optional_fields 0 rec0).2.1 none⟩

/-- C9 (counterexample): the limit "-5" is passed to the sink query as
the negative integer -5 — `parseInt(limit) || 100` only replaces `NaN`
and 0, so the value handed to the sink is neither positive nor bounded,
contrary to the claim. -/
theorem c9_counterexample :
    parseLimit (some "-5") = -5 ∧
    ¬ 0 < parseLimit (some "-5") ∧
    (sensorDataHandler (fun n => (Except.error (toString n) : Except String (List Unit)))
      (some "-5")).error = some "-5" := by
  decide

/-- C9 (amended): the `limit` query parameter is coerced with
`parseInt(...) || 100`: the value passed to the sink query is always a
nonzero integer, equal to 100 when the parameter is absent, unparsable,
or parses to 0, and equal to the parsed integer otherwise — with no
positivity or upper-bound enforcement; both Firestore endpoints pass
exactly this value to their sink query. -/
theorem c9_limit_coercion (q : Option String) :
    ¬ parseLimit q = 0 ∧
    (q = none → parseLimit q = 100) ∧
    (∀ s, q = some s → parseIntJS s = none → parseLimit q = 100) ∧
    (∀ s v, q = some s → parseIntJS s = some v → ¬ v = 0 → parseLimit q = v) ∧
    (∀ sinkQuery : Int → Except String (List Unit),
      sensorDataHandler sinkQuery q = firestoreRespond (sinkQuery (parseLimit q)) ∧
      dublinBikesHandler sinkQuery q = firestoreRespond (sinkQuery (parseLimit q))) := by
  refine ⟨?_, ?_, ?_, ?_, fun sinkQuery => ⟨rfl, rfl⟩⟩
  · cases q with
    | none => simp [parseLimit]
    | some s =>
      simp only [parseLimit]
      cases hp : parseIntJS s with
      | none => simp
      | some n =>
        by_cases hn : n = 0
        · subst hn; simp
        · simp [hn]
  · intro hq; subst hq; rfl
  · intro s hq hp; subst hq; simp [parseLimit, hp]
  · intro s v hq hp hv; subst hq; simp [parseLimit, hp, hv]

/-- C9 (witness): the coercion applied to the concrete parameter "42". -/
theorem c9_witness : parseLimit (some "42") = 42 := by
  have h := c9_limit_coercion (some "42")
  exact h.2.2.2.1 "42" 42 rfl (by decide) (by decide)

/-- C10: no session is required for ingestion — at process start the
session id is `null` and the buffer empty, yet a valid `POST /api/data`
succeeds (200), accumulates the records, and `GET /api/data/count`
reports them with `sessionId = null`; the append never fails for lack of
a session. -/
theorem c10_no_session_needed :
    initialState.sessionId = none ∧
    initialState.sensorData = [] ∧
    ∀ (sink : Nat → List SensorRecord → Option String) (data : List SensorRecord),
      (postData sink (.arr data) initialState).response.status = 200 ∧
      (postData sink (.arr data) initialState).response.success = true ∧
      (postData sink (.arr data) initialState).state.sensorData = data ∧
      countHandler (postData sink (.arr data) initialState).state =
        { count := data.length, sessionId := none } := by
  refine ⟨rfl, rfl, fun sink data =>
    ⟨rfl, rfl, by simp [postData, initialState], ?_⟩⟩
  simp [postData, countHandler, initialState]

end SensorBackend
